import Mathlib

/-!
Verification development for the Fertilizer-Dosage-Calculator repository.

The TypeScript sources are embedded shallowly over exact rational
arithmetic (`ℚ` in place of IEEE `number`): partial nutrient maps become
functions into `Option ℚ`, thrown `Error`s become `Except` with one error
constructor per distinct throw site, and the stable `Array.prototype.sort`
required by the ECMAScript specification is modelled by a stable insertion
sort.  Function and field names follow the source where Lean permits.
-/

/-- The closed nutrient enumeration `PpsNutrient` of
`src/presets/pps.ts` / `src/presets/ei.ts`. -/
inductive PpsNutrient
  | NO3 | PO4 | K | Mg | Fe | Cu | Mn | Zn | S
deriving DecidableEq, Repr

/-- The `PpmMap = Partial<Record<PpsNutrient, number>>`: a partial mapping from
nutrients to rational ppm values; `none` models an absent key. -/
def PpmMap : Type := PpsNutrient → Option ℚ

/-- The tagged union `SolutionSpec` of the presets sources: a
reference-dose description or a manual mL-per-10-gallon rate. -/
inductive SolutionSpec
  | ppmPerReferenceDose (referenceTankGallons referenceDoseMl : ℚ)
      (ppmAtReference : PpmMap)
  | manualMlPer10g (mlPer10Gallons : ℚ)

/-- The `NormalizedSolution = { ppmPer10g: PpmMap }` (ppm per 1 mL of dose in a
10-gallon tank). -/
structure NormalizedSolution where
  ppmPer10g : PpmMap

/-- One error constructor per distinct `throw new Error(...)` site of the
presets sources (`pps.ts` and `ei.ts`); the constructor name paraphrases
the thrown message. -/
inductive Err
  | referenceTankGallonsMustBePositive
  | referenceDoseMlMustBePositive
  | tankSizeMustBePositive
  | doseMlMustBeNonnegative
  | doseMlMustBePositive
  | targetPpmMustBeNonnegative
  | targetPpmMustBePositive
  | noPpmDataForNutrient (n : PpsNutrient)
  | eiMacroTargetMustBePositive
  | eiMicroTargetMustBePositive
deriving DecidableEq, Repr

/-- Classification of §7's taxonomy: validation errors are the
non-positive-numeric-input rejections. -/
def Err.isValidation : Err → Bool
  | .referenceTankGallonsMustBePositive => true
  | .referenceDoseMlMustBePositive => true
  | .tankSizeMustBePositive => true
  | .doseMlMustBeNonnegative => true
  | .doseMlMustBePositive => true
  | .targetPpmMustBeNonnegative => true
  | .targetPpmMustBePositive => true
  | .eiMacroTargetMustBePositive => true
  | .eiMicroTargetMustBePositive => true
  | .noPpmDataForNutrient _ => false

/-- Classification of §7's taxonomy: missing-data errors are absent (or
unusable) table/mapping entries. -/
def Err.isMissingData : Err → Bool
  | .noPpmDataForNutrient _ => true
  | _ => false

/-- The `gallonsToLiters` helper of every source file. -/
def gallonsToLiters (gallons : ℚ) : ℚ := gallons * 3.78541

/-- The `litersToGallons` helper of every source file. -/
def litersToGallons (liters : ℚ) : ℚ := liters / 3.78541

/-- The `normalizeSolutionSpec` (identical in `pps.ts` and `ei.ts`): validates
the reference pair, then scales each listed ppm value by
`volumeScale = 10 / referenceTankGallons` and
`doseScale = 1 / referenceDoseMl`; the manual-rate variant normalizes to
an empty map.  The TS `for (const nutrient in ...)` loop over present keys
becomes an `Option.map` on each key. -/
def normalizeSolutionSpec : SolutionSpec → Except Err NormalizedSolution
  | .ppmPerReferenceDose referenceTankGallons referenceDoseMl ppmAtReference =>
      if referenceTankGallons ≤ 0 then .error .referenceTankGallonsMustBePositive
      else if referenceDoseMl ≤ 0 then .error .referenceDoseMlMustBePositive
      else
        let volumeScale := 10 / referenceTankGallons
        let doseScale := 1 / referenceDoseMl
        .ok ⟨fun n => (ppmAtReference n).map (fun ppm => ppm * volumeScale * doseScale)⟩
  | .manualMlPer10g _ => .ok ⟨fun _ => none⟩

/-- The `ppmFromDose` of `ei.ts` (lines 104–122): forward projection of a dose
into the full delivered ppm map; rejects non-positive tanks and strictly
negative doses (a zero dose is accepted). -/
def Ei.ppmFromDose (tankGallons : ℚ) (normalized : NormalizedSolution)
    (doseMl : ℚ) : Except Err PpmMap :=
  if tankGallons ≤ 0 then .error .tankSizeMustBePositive
  else if doseMl < 0 then .error .doseMlMustBeNonnegative
  else
    let tankScale := 10 / tankGallons
    .ok (fun n => (normalized.ppmPer10g n).map (fun ppmPer10g => ppmPer10g * doseMl * tankScale))

/-- The `solveDoseMlForTargetPpm` of `ei.ts` (lines 125–140): inverse-solves
the dose for one nutrient; rejects non-positive tanks and strictly
negative targets, and raises the missing-data error when the anchor entry
is absent or not strictly positive. -/
def Ei.solveDoseMlForTargetPpm (tankGallons : ℚ) (normalized : NormalizedSolution)
    (targetPpm : ℚ) (nutrient : PpsNutrient) : Except Err ℚ :=
  if tankGallons ≤ 0 then .error .tankSizeMustBePositive
  else if targetPpm < 0 then .error .targetPpmMustBeNonnegative
  else
    match normalized.ppmPer10g nutrient with
    | none => .error (.noPpmDataForNutrient nutrient)
    | some ppmPer10g =>
        if ppmPer10g ≤ 0 then .error (.noPpmDataForNutrient nutrient)
        else .ok (targetPpm * (tankGallons / 10) / ppmPer10g)

/-- The `solveMlPerDoseFromAnchor` of `pps.ts` (lines 83–100): as the EI
solver, but a target of exactly zero is also rejected
(`targetPpmPerDose <= 0`). -/
def Pps.solveMlPerDoseFromAnchor (tankGallons : ℚ) (normalized : NormalizedSolution)
    (targetPpmPerDose : ℚ) (anchor : PpsNutrient) : Except Err ℚ :=
  if tankGallons ≤ 0 then .error .tankSizeMustBePositive
  else if targetPpmPerDose ≤ 0 then .error .targetPpmMustBePositive
  else
    match normalized.ppmPer10g anchor with
    | none => .error (.noPpmDataForNutrient anchor)
    | some ppmPer10g =>
        if ppmPer10g ≤ 0 then .error (.noPpmDataForNutrient anchor)
        else .ok (targetPpmPerDose * (tankGallons / 10) / ppmPer10g)

/-- The `impliedPpmFromDose` of `pps.ts` (lines 102–118): as the EI forward
projection, but a dose of exactly zero is also rejected (`doseMl <= 0`). -/
def Pps.impliedPpmFromDose (tankGallons : ℚ) (normalized : NormalizedSolution)
    (doseMl : ℚ) : Except Err PpmMap :=
  if tankGallons ≤ 0 then .error .tankSizeMustBePositive
  else if doseMl ≤ 0 then .error .doseMlMustBePositive
  else
    .ok (fun n => (normalized.ppmPer10g n).map (fun ppmPer10g => ppmPer10g * doseMl * (10 / tankGallons)))

/-- The `"macro" | "micro"` event category of `ei.ts` (`macro` is a Lean
keyword, hence the `Kind` suffix). -/
inductive DoseKind
  | macroKind | microKind
deriving DecidableEq, Repr

/-- The `DoseEvent = { dayOfWeek: number; kind: "macro" | "micro"; ml: number }`
of `ei.ts`. -/
structure DoseEvent where
  dayOfWeek : ℚ
  kind : DoseKind
  ml : ℚ
deriving DecidableEq, Repr

/-- The `EiSchedule` of `ei.ts`. -/
structure EiSchedule where
  macroDays : List ℚ
  microDays : List ℚ
  waterChangeDay : ℚ
deriving DecidableEq, Repr

/-- The `DEFAULT_EI_SCHEDULE` of `ei.ts`: macros Mon/Wed/Fri, micros
Tue/Thu/Sat, water change Sunday. -/
def DEFAULT_EI_SCHEDULE : EiSchedule :=
  { macroDays := [1, 3, 5], microDays := [2, 4, 6], waterChangeDay := 0 }

/-- Insertion of an event into a list ordered by `dayOfWeek`: the new
event is placed before the first element with an equal-or-later day.
Since `sortByDay` inserts the original head last, events listed earlier
end up before events with the same day listed later, giving exactly the
stable order ECMAScript prescribes for `Array.prototype.sort`. -/
def insertByDay (e : DoseEvent) : List DoseEvent → List DoseEvent
  | [] => [e]
  | x :: xs => if e.dayOfWeek ≤ x.dayOfWeek then e :: x :: xs else x :: insertByDay e xs

/-- Stable sort by `dayOfWeek`, modelling
`events.sort((a, b) => a.dayOfWeek - b.dayOfWeek)` of `ei.ts`
(ECMAScript requires `Array.prototype.sort` to be stable). -/
def sortByDay : List DoseEvent → List DoseEvent
  | [] => []
  | e :: l => insertByDay e (sortByDay l)

/-- The `buildEiEvents` of `ei.ts` (lines 86–102): push one macro event per
macro day, then one micro event per micro day, then stably sort the
combined list by day index. -/
def Ei.buildEiEvents (schedule : EiSchedule) (macroMlPerDose microMlPerDose : ℚ) :
    List DoseEvent :=
  sortByDay
    (schedule.macroDays.map (fun d => { dayOfWeek := d, kind := .macroKind, ml := macroMlPerDose })
      ++ schedule.microDays.map (fun d => { dayOfWeek := d, kind := .microKind, ml := microMlPerDose }))

/-- The `EiLevel` of `ei.ts`. -/
inductive EiLevel
  | standard
deriving DecidableEq, Repr

/-- The `{ macro, micro }` target record of `EI_TARGETS_PER_DOSE`
(field names suffixed: `macro` is a Lean keyword). -/
structure EiTargets where
  macroTargets : PpmMap
  microTargets : PpmMap

/-- The `EI_TARGETS_PER_DOSE` of `ei.ts` (lines 60–65). -/
def EI_TARGETS_PER_DOSE : EiLevel → EiTargets
  | .standard =>
    { macroTargets := fun n =>
        match n with
        | .NO3 => some 6.87202044
        | .PO4 => some 1.535401313
        | .K => some 4.0113204
        | _ => none
      microTargets := fun n =>
        match n with
        | .Fe => some 0.266177692
        | .Cu => some 0.002430364
        | .Mn => some 0.04860728
        | .Zn => some 0.009721456
        | _ => none }

/-- The `EiPlan` of `ei.ts`. -/
structure EiPlan where
  level : EiLevel
  schedule : EiSchedule
  macroMlPerDose : ℚ
  microMlPerDose : ℚ
  events : List DoseEvent
  impliedMacroPpmPerDose : Option PpmMap
  impliedMicroPpmPerDose : Option PpmMap

/-- The `buildEiPlan` of `ei.ts` (lines 142–220): validates the tank, then for
each of the macro and micro solutions either scales a manual rate by
`tankGallons / 10` (with no validation of the rate and no implied ppm
map), or normalizes, anchor-solves (NO3 for macro, Fe for micro) against
the per-dose target table, and forward-projects the solved dose; finally
assembles the week's events. -/
def Ei.buildEiPlan (tankGallons : ℚ) (level : EiLevel)
    (macroSolution microSolution : SolutionSpec) (schedule? : Option EiSchedule) :
    Except Err EiPlan := do
  if tankGallons ≤ 0 then throw .tankSizeMustBePositive
  let schedule := schedule?.getD DEFAULT_EI_SCHEDULE
  let targets := EI_TARGETS_PER_DOSE level
  let macroResult ←
    match macroSolution with
    | .manualMlPer10g mlPer10Gallons =>
        pure (mlPer10Gallons * (tankGallons / 10), (none : Option PpmMap))
    | .ppmPerReferenceDose a b c => do
        let normalizedMacro ← normalizeSolutionSpec (.ppmPerReferenceDose a b c)
        let macroAnchorTarget := (targets.macroTargets .NO3).getD 0
        if macroAnchorTarget ≤ 0 then throw .eiMacroTargetMustBePositive
        let ml ← Ei.solveDoseMlForTargetPpm tankGallons normalizedMacro macroAnchorTarget .NO3
        let implied ← Ei.ppmFromDose tankGallons normalizedMacro ml
        pure (ml, some implied)
  let microResult ←
    match microSolution with
    | .manualMlPer10g mlPer10Gallons =>
        pure (mlPer10Gallons * (tankGallons / 10), (none : Option PpmMap))
    | .ppmPerReferenceDose a b c => do
        let normalizedMicro ← normalizeSolutionSpec (.ppmPerReferenceDose a b c)
        let microAnchorTarget := (targets.microTargets .Fe).getD 0
        if microAnchorTarget ≤ 0 then throw .eiMicroTargetMustBePositive
        let ml ← Ei.solveDoseMlForTargetPpm tankGallons normalizedMicro microAnchorTarget .Fe
        let implied ← Ei.ppmFromDose tankGallons normalizedMicro ml
        pure (ml, some implied)
  let events := Ei.buildEiEvents schedule macroResult.1 microResult.1
  pure
    { level := level
      schedule := schedule
      macroMlPerDose := macroResult.1
      microMlPerDose := microResult.1
      events := events
      impliedMacroPpmPerDose := macroResult.2
      impliedMicroPpmPerDose := microResult.2 }

/-- The `PpsLevel` of `pps.ts`. -/
inductive PpsLevel
  | low | medium | veryHigh
deriving DecidableEq, Repr

/-- The `PPS_TARGETS_PER_DAY` of `pps.ts` (lines 52–74). -/
def PPS_TARGETS_PER_DAY : PpsLevel → PpmMap
  | .low => fun n =>
      match n with
      | .NO3 => some 0.5
      | .PO4 => some 0.05
      | .K => some 0.665
      | .Mg => some 0.05
      | .Fe => some 0.025
      | _ => none
  | .medium => fun n =>
      match n with
      | .NO3 => some 1.0
      | .PO4 => some 0.1
      | .K => some 1.33
      | .Mg => some 0.1
      | .Fe => some 0.05
      | _ => none
  | .veryHigh => fun n =>
      match n with
      | .NO3 => some 2.0
      | .PO4 => some 0.2
      | .K => some 2.66
      | .Mg => some 0.2
      | .Fe => some 0.10
      | _ => none

/-- The `daysOfWeek` expression of `buildPpsPlan` (`pps.ts` line 171):
`Array.from({length: dosesPerWeek}, (_, i) => Math.floor((i * 7) / dosesPerWeek))`;
natural-number division is the floor of the exact quotient. -/
def Pps.daysOfWeek (dosesPerWeek : ℕ) : List ℕ :=
  (List.range dosesPerWeek).map (fun i => i * 7 / dosesPerWeek)

/-- The `PpsPlan` of `pps.ts` (the implied maps are always produced on the
successful path of `buildPpsPlan`). -/
structure PpsPlan where
  macroMlPerDose : ℚ
  microMlPerDose : ℚ
  dosesPerWeek : ℕ
  daysOfWeek : List ℕ
  impliedMacroPpm : PpmMap
  impliedMicroPpm : PpmMap

/-- The `buildPpsPlan` of `pps.ts` (lines 129–175): normalize both solutions,
scale the per-day NO3/Fe targets by `7 / dosesPerWeek`, anchor-solve both
doses, forward-project them, and lay the doses out over the week. -/
def Pps.buildPpsPlan (tankGallons : ℚ) (ppsLevel : PpsLevel)
    (macroSolution microSolution : SolutionSpec) (dosesPerWeek : ℕ) :
    Except Err PpsPlan := do
  let normalizedMacro ← normalizeSolutionSpec macroSolution
  let normalizedMicro ← normalizeSolutionSpec microSolution
  let scale : ℚ := 7 / dosesPerWeek
  let no3TargetPerDose := ((PPS_TARGETS_PER_DAY ppsLevel) .NO3).getD 0 * scale
  let feTargetPerDose := ((PPS_TARGETS_PER_DAY ppsLevel) .Fe).getD 0 * scale
  let macroDoseMl ← Pps.solveMlPerDoseFromAnchor tankGallons normalizedMacro no3TargetPerDose .NO3
  let microDoseMl ← Pps.solveMlPerDoseFromAnchor tankGallons normalizedMicro feTargetPerDose .Fe
  let impliedMacroPpm ← Pps.impliedPpmFromDose tankGallons normalizedMacro macroDoseMl
  let impliedMicroPpm ← Pps.impliedPpmFromDose tankGallons normalizedMicro microDoseMl
  pure
    { macroMlPerDose := macroDoseMl
      microMlPerDose := microDoseMl
      dosesPerWeek := dosesPerWeek
      daysOfWeek := Pps.daysOfWeek dosesPerWeek
      impliedMacroPpm := impliedMacroPpm
      impliedMicroPpm := impliedMicroPpm }

/-- The closed nutrient enumeration of the dry-salt source files. -/
inductive DrySalt.Nutrient
  | NO3 | PO4 | K | Fe
deriving DecidableEq, Repr

/-- The closed compound enumeration of the dry-salt source files. -/
inductive DrySalt.Compound
  | KNO3 | KH2PO4 | K2SO4
deriving DecidableEq, Repr

/-- The `FRACTION_BY_MASS` of the dry-salt sources: fraction of each
compound's mass contributed by each nutrient. -/
def DrySalt.FRACTION_BY_MASS : DrySalt.Compound → DrySalt.Nutrient → Option ℚ
  | .KNO3, .NO3 => some 0.613
  | .KNO3, .K => some 0.387
  | .KH2PO4, .PO4 => some 0.698
  | .KH2PO4, .K => some 0.287
  | .K2SO4, .K => some 0.449
  | _, _ => none

/-- One error constructor per distinct `throw` site of the dry-salt
sources. -/
inductive DrySalt.Err
  | compoundDoesNotProvideNutrient (c : DrySalt.Compound) (n : DrySalt.Nutrient)
  | tankSizeMustBePositive
  | targetPpmIncreaseMustBePositive
  | concentrationMustBePositive
  | massMustBePositive
  | volumeMustBePositive
deriving DecidableEq, Repr

/-- The `getFraction` of the dry-salt sources: table lookup that throws when
the compound does not provide the nutrient. -/
def DrySalt.getFraction (c : DrySalt.Compound) (n : DrySalt.Nutrient) :
    Except DrySalt.Err ℚ :=
  match DrySalt.FRACTION_BY_MASS c n with
  | none => .error (.compoundDoesNotProvideNutrient c n)
  | some f => .ok f

/-- The `nutrientMgNeeded` of the dry-salt sources: mg of nutrient required
for a ppm increase in a tank, `tankLiters * targetPpmIncrease`. -/
def DrySalt.nutrientMgNeeded (tankLiters targetPpmIncrease : ℚ) :
    Except DrySalt.Err ℚ :=
  if tankLiters ≤ 0 then .error .tankSizeMustBePositive
  else if targetPpmIncrease ≤ 0 then .error .targetPpmIncreaseMustBePositive
  else .ok (tankLiters * targetPpmIncrease)

/-- The `compoundMgNeededForPpm` of the dry-salt sources: mg of compound
needed, `nutrientMgNeeded / fraction`. -/
def DrySalt.compoundMgNeededForPpm (tankLiters targetPpmIncrease : ℚ)
    (c : DrySalt.Compound) (n : DrySalt.Nutrient) : Except DrySalt.Err ℚ :=
  if tankLiters ≤ 0 then .error .tankSizeMustBePositive
  else if targetPpmIncrease ≤ 0 then .error .targetPpmIncreaseMustBePositive
  else do
    let mgNutrient ← DrySalt.nutrientMgNeeded tankLiters targetPpmIncrease
    let f ← DrySalt.getFraction c n
    pure (mgNutrient / f)

/-- The `nutrientMgFromCompoundMg` of the dry-salt sources: mg of nutrient
contained in a mass of compound, `mgCompound * fraction`. -/
def DrySalt.nutrientMgFromCompoundMg (c : DrySalt.Compound) (n : DrySalt.Nutrient)
    (mgCompound : ℚ) : Except DrySalt.Err ℚ := do
  let f ← DrySalt.getFraction c n
  pure (mgCompound * f)

/-- The `mgKNO3Needed` computation of the dry-salt balancer script,
parameterized over its inputs: a zero NO3 target skips the compound
(mass 0), otherwise size KNO3 against the NO3 target. -/
def DrySalt.mgKNO3Needed (tankLiters no3Ppm : ℚ) : Except DrySalt.Err ℚ :=
  if no3Ppm = 0 then .ok 0
  else DrySalt.compoundMgNeededForPpm tankLiters no3Ppm .KNO3 .NO3

/-- The `mgKH2PO4Needed` computation of the dry-salt balancer script. -/
def DrySalt.mgKH2PO4Needed (tankLiters po4Ppm : ℚ) : Except DrySalt.Err ℚ :=
  if po4Ppm = 0 then .ok 0
  else DrySalt.compoundMgNeededForPpm tankLiters po4Ppm .KH2PO4 .PO4

/-- The `mgKAlready` computation of the dry-salt balancer script: K mass
already contributed by the sized KNO3 and KH2PO4 via their K fractions. -/
def DrySalt.mgKAlready (tankLiters no3Ppm po4Ppm : ℚ) : Except DrySalt.Err ℚ := do
  let a ← DrySalt.nutrientMgFromCompoundMg .KNO3 .K (← DrySalt.mgKNO3Needed tankLiters no3Ppm)
  let b ← DrySalt.nutrientMgFromCompoundMg .KH2PO4 .K (← DrySalt.mgKH2PO4Needed tankLiters po4Ppm)
  pure (a + b)

/-- The `mgKTarget` computation of the dry-salt balancer script. -/
def DrySalt.mgKTarget (tankLiters kPpm : ℚ) : Except DrySalt.Err ℚ :=
  if kPpm = 0 then .ok 0
  else DrySalt.nutrientMgNeeded tankLiters kPpm

/-- The `mgKDeficit` computation of the dry-salt balancer script:
`Math.max(0, mgKTarget - mgKAlready)`. -/
def DrySalt.mgKDeficit (tankLiters no3Ppm po4Ppm kPpm : ℚ) : Except DrySalt.Err ℚ := do
  let target ← DrySalt.mgKTarget tankLiters kPpm
  let already ← DrySalt.mgKAlready tankLiters no3Ppm po4Ppm
  pure (max 0 (target - already))

/-- The `mgK2SO4Needed` computation of the dry-salt balancer script: size
K2SO4 against the K deficit only (zero deficit means no K2SO4). -/
def DrySalt.mgK2SO4Needed (tankLiters no3Ppm po4Ppm kPpm : ℚ) : Except DrySalt.Err ℚ := do
  let deficit ← DrySalt.mgKDeficit tankLiters no3Ppm po4Ppm kPpm
  if deficit = 0 then pure 0
  else do
    let f ← DrySalt.getFraction .K2SO4 .K
    pure (deficit / f)

/-! ### Shared helper lemmas -/

/-- Reduction of a successful `Except` bind. -/
theorem exceptBind_ok {ε α β : Type} (a : α) (f : α → Except ε β) :
    (Except.ok a : Except ε α) >>= f = f a := rfl

/-- Reduction of a failed `Except` bind. -/
theorem exceptBind_error {ε α β : Type} (e : ε) (f : α → Except ε β) :
    (Except.error e : Except ε α) >>= f = .error e := rfl

/-- A normalized solution carrying only `NO3 ↦ 1`, used to instantiate
theorems at a concrete input. -/
def unitNO3Norm : NormalizedSolution :=
  ⟨fun n => match n with | .NO3 => some 1 | _ => none⟩

/-- Shared helper: the successful branch of `normalizeSolutionSpec` on a
reference-dose specification with positive reference pair. -/
theorem normalizeSolutionSpec_refDose_ok (referenceTankGallons referenceDoseMl : ℚ)
    (ppmAtReference : PpmMap) (hT : 0 < referenceTankGallons) (hD : 0 < referenceDoseMl) :
    normalizeSolutionSpec
        (.ppmPerReferenceDose referenceTankGallons referenceDoseMl ppmAtReference)
      = .ok ⟨fun n => (ppmAtReference n).map
          (fun ppm => ppm * (10 / referenceTankGallons) * (1 / referenceDoseMl))⟩ := by
  simp only [normalizeSolutionSpec]
  rw [if_neg (not_le.mpr hT), if_neg (not_le.mpr hD)]

/-! ### C1: exact normalization of a reference-dose specification -/

/-- C1: for a reference-dose specification with positive reference tank
and dose volumes, `normalizeSolutionSpec` succeeds, maps every listed
nutrient with observed ppm `p` to exactly
`p * (10 / referenceTankGallons) * (1 / referenceDoseMl)` (10 gallons
being the fixed reference tank size), and leaves every unlisted nutrient
absent. -/
theorem normalize_refDose_exact (referenceTankGallons referenceDoseMl : ℚ)
    (ppmAtReference : PpmMap) (hT : 0 < referenceTankGallons) (hD : 0 < referenceDoseMl) :
    ∃ nor, normalizeSolutionSpec
        (.ppmPerReferenceDose referenceTankGallons referenceDoseMl ppmAtReference) = .ok nor ∧
      (∀ n p, ppmAtReference n = some p →
        nor.ppmPer10g n = some (p * (10 / referenceTankGallons) * (1 / referenceDoseMl))) ∧
      (∀ n, ppmAtReference n = none → nor.ppmPer10g n = none) := by
  refine ⟨⟨fun n => (ppmAtReference n).map
      (fun ppm => ppm * (10 / referenceTankGallons) * (1 / referenceDoseMl))⟩,
    normalizeSolutionSpec_refDose_ok referenceTankGallons referenceDoseMl ppmAtReference hT hD,
    ?_, ?_⟩
  · intro n p h
    simp [h]
  · intro n h
    simp [h]

/-- A reference-dose ppm map carrying only `NO3 ↦ 2.242293966` (the
repository's own macro test data). -/
def macroTestPpm : PpmMap :=
  fun n => match n with | .NO3 => some 2.242293966 | _ => none

/-- Witness for C1 at the repository's macro test data (2 mL into a
10-gallon reference tank). -/
theorem normalize_refDose_exact_witness :
    ∃ nor, normalizeSolutionSpec (.ppmPerReferenceDose 10 2 macroTestPpm) = .ok nor ∧
      (∀ n p, macroTestPpm n = some p →
        nor.ppmPer10g n = some (p * (10 / 10) * (1 / 2))) ∧
      (∀ n, macroTestPpm n = none → nor.ppmPer10g n = none) :=
  normalize_refDose_exact 10 2 macroTestPpm (by simp) (by simp)

/-! ### C2: the normalize / forward-projection round trip -/

/-- A reference-dose ppm map carrying only `NO3 ↦ 1`, for the round-trip
counterexample. -/
def roundTripPpm : PpmMap :=
  fun n => match n with | .NO3 => some 1 | _ => none

/-- The normalization of `roundTripPpm` at a 5-gallon, 1-mL reference. -/
def roundTripNorm : NormalizedSolution :=
  ⟨fun n => (roundTripPpm n).map (fun ppm => ppm * (10 / 5) * (1 / 1))⟩

/-- C2 counterexample: normalizing an NO3 = 1 ppm observation made at a
5-gallon, 1-mL reference and forward-projecting back at that same tank
size and dose returns 4 ppm, not the observed 1 ppm: the round trip holds
only when the reference tank already equals the fixed 10-gallon size. -/
theorem roundTrip_fails_off_reference :
    normalizeSolutionSpec (.ppmPerReferenceDose 5 1 roundTripPpm) = .ok roundTripNorm ∧
    (Ei.ppmFromDose 5 roundTripNorm 1).toOption.map (fun m => m .NO3) = some (some 4) ∧
    roundTripPpm .NO3 = some 1 ∧ (4 : ℚ) ≠ 1 := by
  refine ⟨?_, ?_, rfl, by norm_num⟩
  · simp only [normalizeSolutionSpec]
    rw [if_neg (by norm_num), if_neg (by norm_num)]
    rfl
  · simp only [Ei.ppmFromDose]
    rw [if_neg (by norm_num), if_neg (by norm_num)]
    simp [roundTripNorm, roundTripPpm, Except.toOption]
    norm_num

/-- C2 (amended: the reference tank volume must equal the fixed 10-gallon
reference size): for a specification observed at a 10-gallon reference
with positive dose volume, forward-projecting the normalized solution at
10 gallons with the reference dose reproduces every listed observed ppm
exactly. -/
theorem roundTrip_at_reference_tank (referenceDoseMl : ℚ) (ppmAtReference : PpmMap)
    (hD : 0 < referenceDoseMl) :
    ∃ nor m, normalizeSolutionSpec
        (.ppmPerReferenceDose 10 referenceDoseMl ppmAtReference) = .ok nor ∧
      Ei.ppmFromDose 10 nor referenceDoseMl = .ok m ∧
      ∀ n p, ppmAtReference n = some p → m n = some p := by
  have hnor :=
    normalizeSolutionSpec_refDose_ok 10 referenceDoseMl ppmAtReference (by norm_num) hD
  set nor : NormalizedSolution := ⟨fun n => (ppmAtReference n).map
      (fun ppm => ppm * (10 / 10) * (1 / referenceDoseMl))⟩ with hnordef
  have hval : ∀ n p, ppmAtReference n = some p →
      nor.ppmPer10g n = some (p * (10 / 10) * (1 / referenceDoseMl)) := by
    intro n p h
    simp [hnordef, h]
  refine ⟨nor, fun n => (nor.ppmPer10g n).map
      (fun ppmPer10g => ppmPer10g * referenceDoseMl * (10 / 10)), hnor, ?_, ?_⟩
  · simp only [Ei.ppmFromDose]
    rw [if_neg (by norm_num), if_neg (not_lt.mpr hD.le)]
  · intro n p h
    have hD' : referenceDoseMl ≠ 0 := ne_of_gt hD
    show (nor.ppmPer10g n).map
        (fun ppmPer10g => ppmPer10g * referenceDoseMl * (10 / 10)) = some p
    rw [hval n p h]
    simp only [Option.map_some']
    field_simp

/-- Witness for the amended C2 at the repository's macro test data. -/
theorem roundTrip_at_reference_tank_witness :
    ∃ nor m, normalizeSolutionSpec (.ppmPerReferenceDose 10 2 macroTestPpm) = .ok nor ∧
      Ei.ppmFromDose 10 nor 2 = .ok m ∧
      ∀ n p, macroTestPpm n = some p → m n = some p :=
  roundTrip_at_reference_tank 2 macroTestPpm (by simp)

/-! ### C3: solve-then-project hits the anchor target exactly -/

/-- C3: with a positive tank, a non-negative target (every target the EI
solver accepts) and a strictly positive anchor entry, the dose returned by
`solveDoseMlForTargetPpm` forward-projects through `ppmFromDose` to
exactly the target ppm at the anchor nutrient. -/
theorem solveDose_ppmFromDose_anchor (tankGallons targetPpm : ℚ)
    (normalized : NormalizedSolution) (anchor : PpsNutrient) (v : ℚ)
    (ht : 0 < tankGallons) (htp : 0 ≤ targetPpm)
    (hv : normalized.ppmPer10g anchor = some v) (hvpos : 0 < v) :
    ∃ doseMl m,
      Ei.solveDoseMlForTargetPpm tankGallons normalized targetPpm anchor = .ok doseMl ∧
      Ei.ppmFromDose tankGallons normalized doseMl = .ok m ∧
      m anchor = some targetPpm := by
  have hdose : 0 ≤ targetPpm * (tankGallons / 10) / v :=
    div_nonneg (mul_nonneg htp (by positivity)) hvpos.le
  refine ⟨targetPpm * (tankGallons / 10) / v,
    fun n => (normalized.ppmPer10g n).map
      (fun ppmPer10g => ppmPer10g * (targetPpm * (tankGallons / 10) / v) * (10 / tankGallons)),
    ?_, ?_, ?_⟩
  · simp only [Ei.solveDoseMlForTargetPpm, hv]
    rw [if_neg (not_le.mpr ht), if_neg (not_lt.mpr htp), if_neg (not_le.mpr hvpos)]
  · simp only [Ei.ppmFromDose]
    rw [if_neg (not_le.mpr ht), if_neg (not_lt.mpr hdose)]
  · simp only [hv, Option.map_some]
    have h10 : tankGallons ≠ 0 := ne_of_gt ht
    have hv' : v ≠ 0 := ne_of_gt hvpos
    field_simp
    ring

/-- Witness for C3: tank of 10 gallons, anchor NO3 with unit
concentration, target 5 ppm. -/
theorem solveDose_ppmFromDose_anchor_witness :
    ∃ doseMl m,
      Ei.solveDoseMlForTargetPpm 10 unitNO3Norm 5 .NO3 = .ok doseMl ∧
      Ei.ppmFromDose 10 unitNO3Norm doseMl = .ok m ∧
      m .NO3 = some 5 :=
  solveDose_ppmFromDose_anchor 10 5 unitNO3Norm .NO3 1 (by simp) (by simp) rfl (by simp)

/-! ### C4: a target ppm of exactly zero -/

/-- C4 counterexample: the EI solver `solveDoseMlForTargetPpm` does not
fail on a target ppm of exactly 0 — its guard is `targetPpm < 0` — and
returns the dose volume 0, contradicting the claim that both solver
implementations reject a zero target with a validation error. -/
theorem ei_solver_accepts_zero_target :
    Ei.solveDoseMlForTargetPpm 10 unitNO3Norm 0 .NO3 = .ok 0 := by
  have hv : unitNO3Norm.ppmPer10g .NO3 = some 1 := rfl
  simp only [Ei.solveDoseMlForTargetPpm, hv]
  rw [if_neg (by norm_num), if_neg (by norm_num), if_neg (by norm_num)]
  norm_num

/-- C4 (amended: only the PPS solver rejects a zero target): with a
positive tank size and a strictly positive anchor entry, the PPS solver
`solveMlPerDoseFromAnchor` rejects a target of exactly 0 with its
validation error, while the EI solver `solveDoseMlForTargetPpm`, whose
guard only rejects strictly negative targets, returns the dose 0. -/
theorem zero_target_split_behavior (tankGallons : ℚ) (normalized : NormalizedSolution)
    (anchor : PpsNutrient) (v : ℚ) (ht : 0 < tankGallons)
    (hv : normalized.ppmPer10g anchor = some v) (hvpos : 0 < v) :
    Pps.solveMlPerDoseFromAnchor tankGallons normalized 0 anchor
        = .error .targetPpmMustBePositive ∧
    Err.targetPpmMustBePositive.isValidation = true ∧
    Ei.solveDoseMlForTargetPpm tankGallons normalized 0 anchor = .ok 0 := by
  refine ⟨?_, rfl, ?_⟩
  · simp only [Pps.solveMlPerDoseFromAnchor]
    rw [if_neg (not_le.mpr ht), if_pos le_rfl]
  · simp only [Ei.solveDoseMlForTargetPpm, hv]
    rw [if_neg (not_le.mpr ht), if_neg (by norm_num), if_neg (not_le.mpr hvpos)]
    norm_num

/-- Witness for the amended C4 at a 10-gallon tank with a unit NO3
anchor entry. -/
theorem zero_target_split_behavior_witness :
    Pps.solveMlPerDoseFromAnchor 10 unitNO3Norm 0 .NO3
        = .error .targetPpmMustBePositive ∧
    Err.targetPpmMustBePositive.isValidation = true ∧
    Ei.solveDoseMlForTargetPpm 10 unitNO3Norm 0 .NO3 = .ok 0 :=
  zero_target_split_behavior 10 unitNO3Norm .NO3 1 (by simp) rfl (by simp)

/-! ### C5: missing-data failure exactly characterised -/

/-- C5: with a valid tank size and target (strictly positive for the PPS
solver, non-negative suffices for the EI solver, whose guard is laxer, so
strict positivity validates for both), each solver fails with the
missing-data error exactly when the anchor has no strictly positive
entry, and returns the solved dose `targetPpm * (tankGallons / 10) / v`
whenever the anchor entry `v` is present and strictly positive. -/
theorem anchor_missing_data_iff (tankGallons targetPpm : ℚ)
    (normalized : NormalizedSolution) (anchor : PpsNutrient)
    (ht : 0 < tankGallons) (htp : 0 < targetPpm) :
    (Pps.solveMlPerDoseFromAnchor tankGallons normalized targetPpm anchor
        = .error (.noPpmDataForNutrient anchor)
      ↔ ∀ v, normalized.ppmPer10g anchor = some v → v ≤ 0) ∧
    (Ei.solveDoseMlForTargetPpm tankGallons normalized targetPpm anchor
        = .error (.noPpmDataForNutrient anchor)
      ↔ ∀ v, normalized.ppmPer10g anchor = some v → v ≤ 0) ∧
    (Err.noPpmDataForNutrient anchor).isMissingData = true ∧
    (∀ v, normalized.ppmPer10g anchor = some v → 0 < v →
      Pps.solveMlPerDoseFromAnchor tankGallons normalized targetPpm anchor
          = .ok (targetPpm * (tankGallons / 10) / v) ∧
      Ei.solveDoseMlForTargetPpm tankGallons normalized targetPpm anchor
          = .ok (targetPpm * (tankGallons / 10) / v)) := by
  have hPps : ∀ r, Pps.solveMlPerDoseFromAnchor tankGallons normalized targetPpm anchor = r ↔
      (match normalized.ppmPer10g anchor with
        | none => Except.error (Err.noPpmDataForNutrient anchor)
        | some ppmPer10g =>
            if ppmPer10g ≤ 0 then Except.error (Err.noPpmDataForNutrient anchor)
            else Except.ok (targetPpm * (tankGallons / 10) / ppmPer10g)) = r := by
    intro r
    simp only [Pps.solveMlPerDoseFromAnchor]
    rw [if_neg (not_le.mpr ht), if_neg (not_le.mpr htp)]
  have hEi : ∀ r, Ei.solveDoseMlForTargetPpm tankGallons normalized targetPpm anchor = r ↔
      (match normalized.ppmPer10g anchor with
        | none => Except.error (Err.noPpmDataForNutrient anchor)
        | some ppmPer10g =>
            if ppmPer10g ≤ 0 then Except.error (Err.noPpmDataForNutrient anchor)
            else Except.ok (targetPpm * (tankGallons / 10) / ppmPer10g)) = r := by
    intro r
    simp only [Ei.solveDoseMlForTargetPpm]
    rw [if_neg (not_le.mpr ht), if_neg (not_lt.mpr htp.le)]
  refine ⟨?_, ?_, rfl, ?_⟩
  · rw [hPps]
    cases hcase : normalized.ppmPer10g anchor with
    | none => simp
    | some v =>
        by_cases hvle : v ≤ 0
        · simp [hvle]
        · simp only [hvle, if_false]
          constructor
          · intro h
            exact absurd h (by simp)
          · intro h
            exact absurd (h v rfl) hvle
  · rw [hEi]
    cases hcase : normalized.ppmPer10g anchor with
    | none => simp
    | some v =>
        by_cases hvle : v ≤ 0
        · simp [hvle]
        · simp only [hvle, if_false]
          constructor
          · intro h
            exact absurd h (by simp)
          · intro h
            exact absurd (h v rfl) hvle
  · intro v hv hvpos
    constructor
    · rw [hPps, hv]
      simp only [if_neg (not_le.mpr hvpos)]
    · rw [hEi, hv]
      simp only [if_neg (not_le.mpr hvpos)]

/-- Witness for C5: both solvers succeed on the unit NO3 anchor with a
10-gallon tank and a 5 ppm target. -/
theorem anchor_missing_data_iff_witness :
    Pps.solveMlPerDoseFromAnchor 10 unitNO3Norm 5 .NO3 = .ok (5 * (10 / 10) / 1) ∧
    Ei.solveDoseMlForTargetPpm 10 unitNO3Norm 5 .NO3 = .ok (5 * (10 / 10) / 1) :=
  (anchor_missing_data_iff 10 5 unitNO3Norm .NO3 (by simp) (by simp)).2.2.2 1 rfl (by simp)

/-! ### C6: the `floor(i * 7 / n)` weekly distribution -/

/-- C6: for any dosesPerWeek ≥ 1 (values above 7 included), the
`daysOfWeek` distribution of `buildPpsPlan` yields exactly dosesPerWeek
day indices, each of them at most 6 (hence in [0, 6] over ℕ), in
non-decreasing generation order, and the i-th index is `⌊i * 7 / n⌋`. -/
theorem daysOfWeek_distribution (dosesPerWeek : ℕ) (h : 1 ≤ dosesPerWeek) :
    (Pps.daysOfWeek dosesPerWeek).length = dosesPerWeek ∧
    (∀ d ∈ Pps.daysOfWeek dosesPerWeek, d ≤ 6) ∧
    (Pps.daysOfWeek dosesPerWeek).Sorted (· ≤ ·) ∧
    (∀ i, i < dosesPerWeek →
      (Pps.daysOfWeek dosesPerWeek).getD i 0 = i * 7 / dosesPerWeek) := by
  have hpos : 0 < dosesPerWeek := h
  refine ⟨by simp [Pps.daysOfWeek], ?_, ?_, ?_⟩
  · intro d hd
    simp only [Pps.daysOfWeek, List.mem_map, List.mem_range] at hd
    obtain ⟨i, hi, rfl⟩ := hd
    have hlt : i * 7 < 7 * dosesPerWeek := by
      have := Nat.mul_lt_mul_of_lt_of_le hi (le_refl 7) (by norm_num)
      omega
    have h7 : i * 7 / dosesPerWeek < 7 := (Nat.div_lt_iff_lt_mul hpos).mpr hlt
    omega
  · simp only [Pps.daysOfWeek, List.Sorted]
    rw [List.pairwise_map]
    refine List.Pairwise.imp ?_ (List.pairwise_lt_range dosesPerWeek)
    intro i j hij
    exact Nat.div_le_div_right (Nat.mul_le_mul_right 7 hij.le)
  · intro i hi
    simp [Pps.daysOfWeek, List.getD_eq_getElem?_getD, hi]

/-- Witness for C6 at 9 doses per week (more than 7): the distribution is
`[0, 0, 1, 2, 3, 3, 4, 5, 6]`, of length 9. -/
theorem daysOfWeek_distribution_witness :
    (Pps.daysOfWeek 9).length = 9 ∧ Pps.daysOfWeek 9 = [0, 0, 1, 2, 3, 3, 4, 5, 6] :=
  ⟨(daysOfWeek_distribution 9 (by decide)).1, by decide⟩

/-! ### C7: event assembly — count, order, stable ties -/

/-- Inserting adds exactly one event. -/
theorem length_insertByDay (e : DoseEvent) (l : List DoseEvent) :
    (insertByDay e l).length = l.length + 1 := by
  induction l with
  | nil => rfl
  | cons x xs ih =>
      simp only [insertByDay]
      by_cases hle : e.dayOfWeek ≤ x.dayOfWeek
      · simp [hle]
      · simp [hle, ih]

/-- Sorting preserves the number of events. -/
theorem length_sortByDay (l : List DoseEvent) : (sortByDay l).length = l.length := by
  induction l with
  | nil => rfl
  | cons e xs ih => simp [sortByDay, length_insertByDay, ih]

/-- Membership in an insertion. -/
theorem mem_insertByDay (y e : DoseEvent) (l : List DoseEvent) :
    y ∈ insertByDay e l ↔ y = e ∨ y ∈ l := by
  induction l with
  | nil => simp [insertByDay]
  | cons x xs ih =>
      simp only [insertByDay]
      by_cases hle : e.dayOfWeek ≤ x.dayOfWeek
      · simp [hle, or_comm, or_assoc, or_left_comm]
      · simp [hle, ih]
        tauto

/-- Inserting into a day-ordered list keeps it day-ordered. -/
theorem pairwise_insertByDay (e : DoseEvent) (l : List DoseEvent)
    (h : l.Pairwise (fun a b => a.dayOfWeek ≤ b.dayOfWeek)) :
    (insertByDay e l).Pairwise (fun a b => a.dayOfWeek ≤ b.dayOfWeek) := by
  induction l with
  | nil => simp [insertByDay]
  | cons x xs ih =>
      rw [List.pairwise_cons] at h
      obtain ⟨hx, hxs⟩ := h
      simp only [insertByDay]
      by_cases hle : e.dayOfWeek ≤ x.dayOfWeek
      · rw [if_pos hle, List.pairwise_cons]
        refine ⟨?_, List.Pairwise.cons hx hxs⟩
        intro y hy
        rcases List.mem_cons.mp hy with rfl | hy
        · exact hle
        · exact le_trans hle (hx y hy)
      · rw [if_neg hle, List.pairwise_cons]
        refine ⟨?_, ih hxs⟩
        intro y hy
        rcases (mem_insertByDay y e xs).mp hy with rfl | hy
        · exact le_of_not_le hle
        · exact hx y hy

/-- The sorted event list is day-ordered. -/
theorem pairwise_sortByDay (l : List DoseEvent) :
    (sortByDay l).Pairwise (fun a b => a.dayOfWeek ≤ b.dayOfWeek) := by
  induction l with
  | nil => simp [sortByDay]
  | cons e xs ih => exact pairwise_insertByDay e (sortByDay xs) ih

/-- Filtering a fixed day out of an insertion: the inserted event lands in
front of the (equal-day) block it joins. -/
theorem filter_day_insertByDay (e : DoseEvent) (l : List DoseEvent) (d : ℚ) :
    (insertByDay e l).filter (fun x => x.dayOfWeek = d)
      = if e.dayOfWeek = d then e :: l.filter (fun x => x.dayOfWeek = d)
        else l.filter (fun x => x.dayOfWeek = d) := by
  induction l with
  | nil =>
      simp only [insertByDay]
      by_cases he : e.dayOfWeek = d
      · simp [he]
      · simp [he]
  | cons x xs ih =>
      simp only [insertByDay]
      by_cases hle : e.dayOfWeek ≤ x.dayOfWeek
      · rw [if_pos hle]
        by_cases he : e.dayOfWeek = d
        · simp [List.filter, he]
        · simp [List.filter, he]
      · rw [if_neg hle]
        by_cases hx : x.dayOfWeek = d
        · by_cases he : e.dayOfWeek = d
          · exact absurd (hx ▸ he ▸ le_refl e.dayOfWeek) hle
          · simp [List.filter, hx, he, ih]
        · simp [List.filter, hx, ih]

/-- Stability: filtering any fixed day out of the sorted list returns
exactly the events of that day in their original insertion order. -/
theorem filter_day_sortByDay (l : List DoseEvent) (d : ℚ) :
    (sortByDay l).filter (fun x => x.dayOfWeek = d)
      = l.filter (fun x => x.dayOfWeek = d) := by
  induction l with
  | nil => rfl
  | cons e xs ih =>
      simp only [sortByDay, filter_day_insertByDay, ih]
      by_cases he : e.dayOfWeek = d
      · simp [List.filter, he]
      · simp [List.filter, he]

/-- C7: `buildEiEvents` returns one event per macro day plus one per micro
day, in non-decreasing day order, and for every day the events of that day
are exactly the macro events of that day (in macro-day list order)
followed by the micro events of that day (in micro-day list order) —
macro before micro on ties, as `buildEiEvents` pushes macros first and
sorts stably. -/
theorem buildEiEvents_merge (schedule : EiSchedule) (macroMlPerDose microMlPerDose : ℚ) :
    (Ei.buildEiEvents schedule macroMlPerDose microMlPerDose).length
        = schedule.macroDays.length + schedule.microDays.length ∧
    (Ei.buildEiEvents schedule macroMlPerDose microMlPerDose).Pairwise
        (fun a b => a.dayOfWeek ≤ b.dayOfWeek) ∧
    ∀ d : ℚ,
      (Ei.buildEiEvents schedule macroMlPerDose microMlPerDose).filter
          (fun e => e.dayOfWeek = d)
        = (schedule.macroDays.map
              (fun day => { dayOfWeek := day, kind := .macroKind, ml := macroMlPerDose })).filter
            (fun e => e.dayOfWeek = d)
          ++ (schedule.microDays.map
              (fun day => { dayOfWeek := day, kind := .microKind, ml := microMlPerDose })).filter
            (fun e => e.dayOfWeek = d) := by
  refine ⟨?_, pairwise_sortByDay _, ?_⟩
  · simp [Ei.buildEiEvents, length_sortByDay]
  · intro d
    rw [Ei.buildEiEvents, filter_day_sortByDay, List.filter_append]

/-! ### C8: the potassium deficit is floored at zero -/

/-- With a positive tank and non-negative NO3 target, the KNO3 sizing
succeeds and is non-negative. -/
theorem mgKNO3Needed_ok (tankLiters no3Ppm : ℚ) (ht : 0 < tankLiters) (hn : 0 ≤ no3Ppm) :
    ∃ m, DrySalt.mgKNO3Needed tankLiters no3Ppm = .ok m ∧ 0 ≤ m := by
  by_cases h0 : no3Ppm = 0
  · exact ⟨0, by simp [DrySalt.mgKNO3Needed, h0], le_refl 0⟩
  · have hpos : 0 < no3Ppm := lt_of_le_of_ne hn (Ne.symm h0)
    refine ⟨tankLiters * no3Ppm / 0.613, ?_, by positivity⟩
    simp only [DrySalt.mgKNO3Needed, h0, if_false, DrySalt.compoundMgNeededForPpm,
      DrySalt.nutrientMgNeeded]
    rw [if_neg (not_le.mpr ht), if_neg (not_le.mpr hpos), if_neg (not_le.mpr ht),
      if_neg (not_le.mpr hpos)]
    rfl

/-- With a positive tank and non-negative PO4 target, the KH2PO4 sizing
succeeds and is non-negative. -/
theorem mgKH2PO4Needed_ok (tankLiters po4Ppm : ℚ) (ht : 0 < tankLiters) (hp : 0 ≤ po4Ppm) :
    ∃ m, DrySalt.mgKH2PO4Needed tankLiters po4Ppm = .ok m ∧ 0 ≤ m := by
  by_cases h0 : po4Ppm = 0
  · exact ⟨0, by simp [DrySalt.mgKH2PO4Needed, h0], le_refl 0⟩
  · have hpos : 0 < po4Ppm := lt_of_le_of_ne hp (Ne.symm h0)
    refine ⟨tankLiters * po4Ppm / 0.698, ?_, by positivity⟩
    simp only [DrySalt.mgKH2PO4Needed, h0, if_false, DrySalt.compoundMgNeededForPpm,
      DrySalt.nutrientMgNeeded]
    rw [if_neg (not_le.mpr ht), if_neg (not_le.mpr hpos), if_neg (not_le.mpr ht),
      if_neg (not_le.mpr hpos)]
    rfl

/-- With a positive tank and non-negative NO3/PO4 targets, the
already-provided potassium mass succeeds and is non-negative. -/
theorem mgKAlready_ok (tankLiters no3Ppm po4Ppm : ℚ)
    (ht : 0 < tankLiters) (hn : 0 ≤ no3Ppm) (hp : 0 ≤ po4Ppm) :
    ∃ a, DrySalt.mgKAlready tankLiters no3Ppm po4Ppm = .ok a ∧ 0 ≤ a := by
  obtain ⟨m1, hm1, hm1n⟩ := mgKNO3Needed_ok tankLiters no3Ppm ht hn
  obtain ⟨m2, hm2, hm2n⟩ := mgKH2PO4Needed_ok tankLiters po4Ppm ht hp
  refine ⟨m1 * 0.387 + m2 * 0.287, ?_, by positivity⟩
  simp only [DrySalt.mgKAlready, hm1, hm2, DrySalt.nutrientMgFromCompoundMg,
    DrySalt.getFraction, DrySalt.FRACTION_BY_MASS, exceptBind_ok]
  rfl

/-- With a positive tank and non-negative K target, the potassium target
mass succeeds and is non-negative. -/
theorem mgKTarget_ok (tankLiters kPpm : ℚ) (ht : 0 < tankLiters) (hk : 0 ≤ kPpm) :
    ∃ t, DrySalt.mgKTarget tankLiters kPpm = .ok t ∧ 0 ≤ t := by
  by_cases h0 : kPpm = 0
  · exact ⟨0, by simp [DrySalt.mgKTarget, h0], le_refl 0⟩
  · have hpos : 0 < kPpm := lt_of_le_of_ne hk (Ne.symm h0)
    refine ⟨tankLiters * kPpm, ?_, by positivity⟩
    simp only [DrySalt.mgKTarget, h0, if_false, DrySalt.nutrientMgNeeded]
    rw [if_neg (not_le.mpr ht), if_neg (not_le.mpr hpos)]

/-- C8: for every positive tank volume and non-negative NO3/PO4/K
targets, the potassium deficit computed by the dry-salt balancer equals
`max(0, targetMassK − alreadyProvidedK)` (where the already-provided mass
sums the sized KNO3 and KH2PO4 masses times their K fractions), and the
K2SO4 mass sized against that deficit is never negative. -/
theorem mgKDeficit_max_and_K2SO4_nonneg (tankLiters no3Ppm po4Ppm kPpm : ℚ)
    (ht : 0 < tankLiters) (hn : 0 ≤ no3Ppm) (hp : 0 ≤ po4Ppm) (hk : 0 ≤ kPpm) :
    ∃ target already deficit mass,
      DrySalt.mgKTarget tankLiters kPpm = .ok target ∧
      DrySalt.mgKAlready tankLiters no3Ppm po4Ppm = .ok already ∧
      DrySalt.mgKDeficit tankLiters no3Ppm po4Ppm kPpm = .ok deficit ∧
      deficit = max 0 (target - already) ∧
      0 ≤ deficit ∧
      DrySalt.mgK2SO4Needed tankLiters no3Ppm po4Ppm kPpm = .ok mass ∧
      0 ≤ mass := by
  obtain ⟨target, htg, htgn⟩ := mgKTarget_ok tankLiters kPpm ht hk
  obtain ⟨already, hal, haln⟩ := mgKAlready_ok tankLiters no3Ppm po4Ppm ht hn hp
  have hdef : DrySalt.mgKDeficit tankLiters no3Ppm po4Ppm kPpm
      = .ok (max 0 (target - already)) := by
    simp only [DrySalt.mgKDeficit, htg, hal, exceptBind_ok]
    rfl
  refine ⟨target, already, max 0 (target - already), ?_, htg, hal, hdef,
    rfl, le_max_left 0 _, ?_, ?_⟩
  · exact if max 0 (target - already) = 0 then 0 else max 0 (target - already) / 0.449
  · simp only [DrySalt.mgK2SO4Needed, hdef, exceptBind_ok]
    by_cases h0 : max 0 (target - already) = 0
    · rw [if_pos h0, h0]
      rfl
    · simp only [h0, if_false, DrySalt.getFraction, DrySalt.FRACTION_BY_MASS, exceptBind_ok]
      rfl
  · by_cases h0 : max 0 (target - already) = 0
    · simp [h0]
    · simp only [h0, if_false]
      have : 0 ≤ max 0 (target - already) := le_max_left 0 _
      positivity

/-- Witness for C8: 100-liter tank with NO3 = 5, PO4 = 1, K = 20 ppm
targets (the spec's dry-salt scenario shape). -/
theorem mgKDeficit_max_and_K2SO4_nonneg_witness :
    ∃ target already deficit mass,
      DrySalt.mgKTarget 100 20 = .ok target ∧
      DrySalt.mgKAlready 100 5 1 = .ok already ∧
      DrySalt.mgKDeficit 100 5 1 20 = .ok deficit ∧
      deficit = max 0 (target - already) ∧
      0 ≤ deficit ∧
      DrySalt.mgK2SO4Needed 100 5 1 20 = .ok mass ∧
      0 ≤ mass :=
  mgKDeficit_max_and_K2SO4_nonneg 100 5 1 20 (by simp) (by simp) (by simp) (by simp)

/-! ### C9: the manual-rate branch of `buildEiPlan` -/

/-- Reduction of `pure` in the `Except` monad. -/
theorem exceptPure_def {ε α : Type} (a : α) : (pure a : Except ε α) = .ok a := rfl

/-- C9 counterexample: `buildEiPlan` called with a manual macro rate of
−1 mL per 10 gallons succeeds — no validation error is raised — and the
returned plan's macro per-dose volume is −1 mL, which is negative. -/
theorem buildEiPlan_accepts_nonpositive_manual_rate :
    (Ei.buildEiPlan 10 .standard (.manualMlPer10g (-1)) (.manualMlPer10g 1) none).toOption.map
        (fun plan => plan.macroMlPerDose) = some (-1) ∧ (-1 : ℚ) ≤ 0 := by
  constructor
  · simp only [Ei.buildEiPlan, exceptPure_def]
    rw [if_neg (by norm_num)]
    simp [Except.toOption, exceptPure_def, exceptBind_ok]
  · norm_num

/-- C9 (amended: `buildEiPlan` performs no validation on manual rates):
with a positive tank and a non-positive manual macro rate, the call
succeeds and the returned plan's macro per-dose volume is the rate scaled
by `tankGallons / 10`, hence non-positive; the claimed validation error is
never raised. -/
theorem buildEiPlan_manual_rate_unvalidated (tankGallons mlMacro mlMicro : ℚ)
    (level : EiLevel) (schedule? : Option EiSchedule)
    (ht : 0 < tankGallons) (hm : mlMacro ≤ 0) :
    ∃ plan,
      Ei.buildEiPlan tankGallons level (.manualMlPer10g mlMacro) (.manualMlPer10g mlMicro)
          schedule? = .ok plan ∧
      plan.macroMlPerDose = mlMacro * (tankGallons / 10) ∧
      plan.microMlPerDose = mlMicro * (tankGallons / 10) ∧
      plan.macroMlPerDose ≤ 0 := by
  refine ⟨{ level := level
            schedule := schedule?.getD DEFAULT_EI_SCHEDULE
            macroMlPerDose := mlMacro * (tankGallons / 10)
            microMlPerDose := mlMicro * (tankGallons / 10)
            events := Ei.buildEiEvents (schedule?.getD DEFAULT_EI_SCHEDULE)
              (mlMacro * (tankGallons / 10)) (mlMicro * (tankGallons / 10))
            impliedMacroPpmPerDose := none
            impliedMicroPpmPerDose := none }, ?_, rfl, rfl, ?_⟩
  · simp [Ei.buildEiPlan, not_le.mpr ht, exceptPure_def, exceptBind_ok]
  · exact mul_nonpos_iff.mpr (Or.inr ⟨hm, by positivity⟩)

/-- Witness for the amended C9: tank of 10 gallons, manual rates 0 and 1. -/
theorem buildEiPlan_manual_rate_unvalidated_witness :
    ∃ plan,
      Ei.buildEiPlan 10 .standard (.manualMlPer10g 0) (.manualMlPer10g 1) none = .ok plan ∧
      plan.macroMlPerDose = 0 * (10 / 10) ∧
      plan.microMlPerDose = 1 * (10 / 10) ∧
      plan.macroMlPerDose ≤ 0 :=
  buildEiPlan_manual_rate_unvalidated 10 0 1 .standard none (by simp) (by simp)

/-! ### C10: forward-projection error characterisation, zero dose -/

/-- C10: the EI forward projector fails exactly when the tank size is not
strictly positive or the dose is strictly negative (with the validation
error naming the offending input); at dose 0 it succeeds and maps every
tracked nutrient to 0 ppm, whereas the PPS projector rejects a dose of 0
with its validation error. -/
theorem ppmFromDose_error_characterisation (tankGallons doseMl : ℚ)
    (normalized : NormalizedSolution) :
    ((∃ m, Ei.ppmFromDose tankGallons normalized doseMl = .ok m)
      ↔ (0 < tankGallons ∧ 0 ≤ doseMl)) ∧
    (tankGallons ≤ 0 →
      Ei.ppmFromDose tankGallons normalized doseMl = .error .tankSizeMustBePositive) ∧
    (0 < tankGallons → doseMl < 0 →
      Ei.ppmFromDose tankGallons normalized doseMl = .error .doseMlMustBeNonnegative) ∧
    (0 < tankGallons →
      Ei.ppmFromDose tankGallons normalized 0
        = .ok (fun n => (normalized.ppmPer10g n).map (fun _ => 0))) ∧
    (0 < tankGallons →
      Pps.impliedPpmFromDose tankGallons normalized 0 = .error .doseMlMustBePositive) := by
  refine ⟨⟨?_, ?_⟩, ?_, ?_, ?_, ?_⟩
  · rintro ⟨m, hm⟩
    by_cases hT : tankGallons ≤ 0
    · simp [Ei.ppmFromDose, hT] at hm
    · by_cases hd : doseMl < 0
      · simp [Ei.ppmFromDose, hT, hd] at hm
      · exact ⟨not_le.mp hT, not_lt.mp hd⟩
  · rintro ⟨hT, hd⟩
    refine ⟨fun n => (normalized.ppmPer10g n).map
      (fun ppmPer10g => ppmPer10g * doseMl * (10 / tankGallons)), ?_⟩
    simp only [Ei.ppmFromDose]
    rw [if_neg (not_le.mpr hT), if_neg (not_lt.mpr hd)]
  · intro hT
    simp [Ei.ppmFromDose, hT]
  · intro hT hd
    simp only [Ei.ppmFromDose]
    rw [if_neg (not_le.mpr hT), if_pos hd]
  · intro hT
    simp only [Ei.ppmFromDose]
    rw [if_neg (not_le.mpr hT), if_neg (by norm_num)]
    congr 1
    funext n
    cases normalized.ppmPer10g n <;> simp
  · intro hT
    simp only [Pps.impliedPpmFromDose]
    rw [if_neg (not_le.mpr hT), if_pos le_rfl]

/-- Witness for C10: at a 10-gallon tank and the unit NO3 normalization, a
zero dose succeeds in the EI projector (all-zero map) and is rejected by
the PPS projector. -/
theorem ppmFromDose_error_characterisation_witness :
    Ei.ppmFromDose 10 unitNO3Norm 0
        = .ok (fun n => (unitNO3Norm.ppmPer10g n).map (fun _ => 0)) ∧
    Pps.impliedPpmFromDose 10 unitNO3Norm 0 = .error .doseMlMustBePositive :=
  ⟨(ppmFromDose_error_characterisation 10 0 unitNO3Norm).2.2.2.1 (by simp),
    (ppmFromDose_error_characterisation 10 0 unitNO3Norm).2.2.2.2 (by simp)⟩
